import Mathlib

/-!
Verification development for the kronos database-backup engine.

The Rust sources under `src/` are shallowly embedded here.  External
effects (filesystem, subprocess invocation, SQLite C API, external
parsing libraries) are modelled as oracle parameters (`…Env`
structures): each oracle field records the outcome one concrete call to
the external world would have produced, and the embedded functions
consume those outcomes exactly the way the Rust control flow does.
Machine integers (`u64`) are modelled as `Nat`; the two floating-point
overhead multiplications (`total as f64 * k`) are modelled exactly over
the rationals `k = 6/5, 23/20, 5/4` with truncation to an integer, which
is what the spec means by "within floating rounding".
-/

namespace Kronos

/-- From `error.rs` lines 4-12: the error taxonomy.  `Error::Io(std::io::Error)`
carries only its display text in the model. -/
inductive Err where
  | Config (msg : String)
  | Database (msg : String)
  | Storage (msg : String)
  | Backup (msg : String)
  | Restore (msg : String)
  | IoError (msg : String)
deriving DecidableEq, Repr

/-- From `error.rs` line 43: `pub type Result<T> = std::result::Result<T, Error>`. -/
abbrev KResult (α : Type) := Except Err α

/-- From `error.rs` lines 14-25: the `Display` impl used by `e.to_string()`. -/
def Err.toStr : Err → String
  | .Config m => "Configuration error: " ++ m
  | .Database m => "Database error: " ++ m
  | .Storage m => "Storage error: " ++ m
  | .Backup m => "Backup error: " ++ m
  | .Restore m => "Restore error: " ++ m
  | .IoError m => "I/O error: " ++ m

/-- From `config.rs` lines 21-28: one configured backend instance. -/
structure DatabaseConfig where
  host : String
  port : Nat
  user : String
  password : String
  databases : List String
deriving DecidableEq, Repr

/-- From `connection.rs` lines 7-12: per-database metadata. -/
structure DatabaseInfo where
  name : String
  size : Option Nat
  schema_version : Option String
deriving DecidableEq, Repr

/-- From `connection.rs` lines 15-20: connectivity-probe outcome. -/
inductive ConnectionStatus where
  | Connected
  | Disconnected
  | Error (msg : String)
deriving DecidableEq, Repr

/-- From `PathBuf::join` on the string paths the engine builds. -/
def pathJoin (a b : String) : String := a ++ "/" ++ b

/-- Outcome of one external-tool invocation (`cmd.output().await` plus the
exit-status check): the spawn itself can fail, the tool can exit non-zero
with captured stderr, or it succeeds with captured stdout. -/
inductive ToolOutcome where
  | spawnErr (msg : String)
  | exitErr (stderr : String)
  | success (stdout : String)
deriving DecidableEq, Repr

/-! ## Connection factory (`connection.rs` lines 45-69) -/

/-- The four backend variants the factory can construct. -/
inductive BackendKind where
  | mysql
  | postgres
  | sqlite
  | mongodb
deriving DecidableEq, Repr

namespace DatabaseConnectionFactory

/-- From `connection.rs` lines 49-63: map a backend-type tag to a constructed
backend instance; unknown tags produce a Database-kind error naming the tag. -/
def create_connection (db_type : String) : KResult BackendKind :=
  if db_type = "mysql" then .ok .mysql
  else if db_type = "postgres" then .ok .postgres
  else if db_type = "sqlite" then .ok .sqlite
  else if db_type = "mongodb" then .ok .mongodb
  else .error (.Database ("Unsupported database type: " ++ db_type))

/-- From `connection.rs` lines 66-68. -/
def supported_types : List String := ["mysql", "postgres", "sqlite", "mongodb"]

end DatabaseConnectionFactory

/-- The `database_type` method of each backend impl
(`mysql.rs` 129-131, `postgres.rs` 145-147, `sqlite.rs` 138-140,
`mongodb.rs` 146-148). -/
def BackendKind.database_type : BackendKind → String
  | .mysql => "mysql"
  | .postgres => "postgres"
  | .sqlite => "sqlite"
  | .mongodb => "mongodb"

/-! ## validate_config of each backend -/

namespace MySQLDatabase

/-- From `mysql.rs` lines 133-144. -/
def validate_config (config : DatabaseConfig) : KResult Unit :=
  if config.host.isEmpty then
    .error (.Config "MySQL host cannot be empty")
  else if config.user.isEmpty then
    .error (.Config "MySQL user cannot be empty")
  else if config.databases.isEmpty then
    .error (.Config "At least one database must be specified")
  else
    .ok ()

end MySQLDatabase

namespace PostgreSQLDatabase

/-- From `postgres.rs` lines 149-160. -/
def validate_config (config : DatabaseConfig) : KResult Unit :=
  if config.host.isEmpty then
    .error (.Config "PostgreSQL host cannot be empty")
  else if config.user.isEmpty then
    .error (.Config "PostgreSQL user cannot be empty")
  else if config.databases.isEmpty then
    .error (.Config "At least one database must be specified")
  else
    .ok ()

end PostgreSQLDatabase

namespace MongoDatabase

/-- From `mongodb.rs` lines 150-164. -/
def validate_config (config : DatabaseConfig) : KResult Unit :=
  if config.host.isEmpty then
    .error (.Config "MongoDB host cannot be empty")
  else if config.user.isEmpty then
    .error (.Config "MongoDB user cannot be empty")
  else if config.password.isEmpty then
    .error (.Config "MongoDB password cannot be empty")
  else if config.databases.isEmpty then
    .error (.Config "At least one database must be specified")
  else
    .ok ()

end MongoDatabase

namespace SQLiteDatabase

/-- From `sqlite.rs` lines 142-165.  The two filesystem probes
(`host_path.exists()`, `db_path.exists()`) are read off the `pathExists`
oracle.  The `{:?}` debug formatting of the `PathBuf` in the second message
is modelled as the plain joined path. -/
def validate_config (config : DatabaseConfig) (pathExists : String → Bool) :
    KResult Unit :=
  if config.host.isEmpty then
    .error (.Config "SQLite host (directory path) cannot be empty")
  else if config.databases.isEmpty then
    .error (.Config "At least one database file must be specified")
  else if !(pathExists config.host) then
    .error (.Config ("SQLite host directory does not exist: " ++ config.host))
  else
    match config.databases.find? (fun db => !(pathExists (pathJoin config.host db))) with
    | some db =>
        .error (.Config ("SQLite database file does not exist: " ++ pathJoin config.host db))
    | none => .ok ()

end SQLiteDatabase

/-! ## Models of the Rust std string helpers

`str::lines`, `str::trim` and `str::parse::<u64>` are standard-library
collaborators; they are modelled here by structurally recursive functions
over character lists so that every concrete instance evaluates. -/

/-- Split a character list on a separator character (the `lines` model:
`split('\n')`, which is what `str::lines` does up to `\r` handling). -/
def splitListOn (c : Char) : List Char → List (List Char)
  | [] => [[]]
  | a :: rest =>
    let r := splitListOn c rest
    if a == c then [] :: r
    else
      match r with
      | [] => [[a]]
      | g :: gs => (a :: g) :: gs

/-- From `str::lines().next()`: the first line. -/
def linesHead (s : String) : Option String :=
  ((splitListOn '\n' s.toList).head?).map String.mk

/-- From `str::trim`: strip leading and trailing whitespace. -/
def trimChars (s : String) : String :=
  String.mk (((s.toList.dropWhile Char.isWhitespace).reverse.dropWhile
    Char.isWhitespace).reverse)

/-- From `str::parse::<u64>().ok()`: all-digit strings parse to their value
(`Nat` models `u64`). -/
def parseU64 (s : String) : Option Nat :=
  if s.toList ≠ [] ∧ s.toList.all Char.isDigit then
    some (s.toList.foldl (fun acc c => acc * 10 + (c.toNat - 48)) 0)
  else none

/-! ## MySQL backend operations (`mysql.rs`) -/

/-- From `str::lines().skip(1).next()` as used on captured mysql stdout: the
second line of the output (header skipped). -/
def linesSkip1Head (s : String) : Option String :=
  (((splitListOn '\n' s.toList).drop 1).head?).map String.mk

namespace MySQLDatabase

/-- Oracle for `execute_mysql_command` (`mysql.rs` lines 27-43): maps the
single `--execute=…` argument each call site passes to the outcome of the
`mysql` subprocess run with the configured connection arguments. -/
structure Env where
  run : String → ToolOutcome

/-- From `mysql.rs` lines 27-43: spawn failure and non-zero exit each map to a
Database-kind error with the captured diagnostic. -/
def execute_mysql_command (env : Env) (arg : String) : KResult String :=
  match env.run arg with
  | .spawnErr m => .error (.Database ("Failed to execute mysql command: " ++ m))
  | .exitErr se => .error (.Database ("MySQL command failed: " ++ se))
  | .success out => .ok out

/-- From `mysql.rs` lines 89-92: the per-database size query argument. -/
def sizeInfoQuery (db : String) : String :=
  "--execute=SELECT ROUND(SUM(data_length + index_length) / 1024 / 1024, 1) AS \x27DB Size in MB\x27 FROM information_schema.tables WHERE table_schema=\x27" ++ db ++ "\x27"

/-- From `mysql.rs` line 101. -/
def versionQuery : String := "--execute=SELECT VERSION()"

/-- From `mysql.rs` lines 150-153: the size query used by `estimate_backup_size`. -/
def sizeEstQuery (db : String) : String :=
  "--execute=SELECT COALESCE(SUM(data_length + index_length), 0) FROM information_schema.tables WHERE table_schema=\x27" ++ db ++ "\x27"

/-- From `mysql.rs` lines 98-99:
`line.parse::<f64>().ok().map(|mb| (mb * 1024.0 * 1024.0) as u64)`.
The floating-point parse is modelled on integral inputs via `parseU64`;
no claim depends on the parsed value, only on the control flow around it. -/
def parseMbToBytes (s : String) : Option Nat :=
  (parseU64 s).map (· * 1048576)

/-- From `mysql.rs` lines 78-83. -/
def test_connection (env : Env) : KResult ConnectionStatus :=
  match execute_mysql_command env "--execute=SELECT 1" with
  | .ok _ => .ok .Connected
  | .error e => .ok (.Error e.toStr)

/-- Loop body of `mysql.rs` lines 85-116: both the size query and the
version query are run through `execute_mysql_command` with `?`, so a failed
command aborts the whole listing. -/
def get_database_info_go (env : Env) : List String → KResult (List DatabaseInfo)
  | [] => .ok []
  | db :: rest =>
    match execute_mysql_command env (sizeInfoQuery db) with
    | .error e => .error e
    | .ok size_result =>
      let size := (linesSkip1Head size_result).bind parseMbToBytes
      match execute_mysql_command env versionQuery with
      | .error e => .error e
      | .ok version_result =>
        let version := linesSkip1Head version_result
        match get_database_info_go env rest with
        | .error e => .error e
        | .ok tail => .ok ({ name := db, size := size, schema_version := version } :: tail)

/-- From `mysql.rs` lines 85-116. -/
def get_database_info (cfg : DatabaseConfig) (env : Env) : KResult (List DatabaseInfo) :=
  get_database_info_go env cfg.databases

/-- Loop of `mysql.rs` lines 149-161: the command result passes through `?`
(abort on failure); an unparseable result line contributes nothing. -/
def estimate_go (env : Env) (acc : Nat) : List String → KResult Nat
  | [] => .ok acc
  | db :: rest =>
    match execute_mysql_command env (sizeEstQuery db) with
    | .error e => .error e
    | .ok size_result =>
      match (linesSkip1Head size_result).bind parseU64 with
      | some n => estimate_go env (acc + n) rest
      | none => estimate_go env acc rest

/-- From `mysql.rs` lines 146-165; `(total_size as f64 * 1.2) as u64` modelled
exactly over the rationals as ⌊total·6/5⌋. -/
def estimate_backup_size (cfg : DatabaseConfig) (env : Env) : KResult Nat :=
  match estimate_go env 0 cfg.databases with
  | .error e => .error e
  | .ok total => .ok (total * 6 / 5)

end MySQLDatabase

/-! ## PostgreSQL backend operations (`postgres.rs`) -/

namespace PostgreSQLDatabase

/-- Oracle for `execute_psql_command` (`postgres.rs` lines 36-61): maps the
target database and the `--command=` query to the `psql` subprocess outcome. -/
structure Env where
  run : String → String → ToolOutcome

/-- From `postgres.rs` lines 36-61. -/
def execute_psql_command (env : Env) (database query : String) : KResult String :=
  match env.run database query with
  | .spawnErr m => .error (.Database ("Failed to execute psql command: " ++ m))
  | .exitErr se => .error (.Database ("psql command failed: " ++ se))
  | .success out => .ok out

/-- From `postgres.rs` lines 111 and 166. -/
def sizeQuery : String := "SELECT pg_database_size(current_database());"

/-- From `postgres.rs` line 118. -/
def versionQuery : String := "SELECT version();"

/-- From `postgres.rs` lines 98-104. -/
def test_connection (env : Env) : KResult ConnectionStatus :=
  match execute_psql_command env "postgres" "SELECT 1;" with
  | .ok _ => .ok .Connected
  | .error e => .ok (.Error e.toStr)

/-- Loop body of `postgres.rs` lines 106-132: both queries pass through `?`,
so a failed command aborts the whole listing. -/
def get_database_info_go (env : Env) : List String → KResult (List DatabaseInfo)
  | [] => .ok []
  | db :: rest =>
    match execute_psql_command env db sizeQuery with
    | .error e => .error e
    | .ok size_result =>
      let size := parseU64 (trimChars size_result)
      match execute_psql_command env db versionQuery with
      | .error e => .error e
      | .ok version_result =>
        let version := (linesHead version_result).map trimChars
        match get_database_info_go env rest with
        | .error e => .error e
        | .ok tail => .ok ({ name := db, size := size, schema_version := version } :: tail)

/-- From `postgres.rs` lines 106-132. -/
def get_database_info (cfg : DatabaseConfig) (env : Env) : KResult (List DatabaseInfo) :=
  get_database_info_go env cfg.databases

/-- Loop of `postgres.rs` lines 165-172: command failure aborts via `?`;
an unparseable result contributes nothing. -/
def estimate_go (env : Env) (acc : Nat) : List String → KResult Nat
  | [] => .ok acc
  | db :: rest =>
    match execute_psql_command env db sizeQuery with
    | .error e => .error e
    | .ok size_result =>
      match parseU64 (trimChars size_result) with
      | some n => estimate_go env (acc + n) rest
      | none => estimate_go env acc rest

/-- From `postgres.rs` lines 162-176; `(total_size as f64 * 1.15) as u64`
modelled exactly over the rationals as ⌊total·23/20⌋. -/
def estimate_backup_size (cfg : DatabaseConfig) (env : Env) : KResult Nat :=
  match estimate_go env 0 cfg.databases with
  | .error e => .error e
  | .ok total => .ok (total * 23 / 20)

end PostgreSQLDatabase

/-! ## MongoDB backend operations (`mongodb.rs`) -/

/-- From `str::trim_matches(c)`: strip every leading and trailing occurrence of
`c` (used with `'"'` in `mongodb.rs` line 95). -/
def trimMatches (c : Char) (s : String) : String :=
  String.mk (((s.toList.dropWhile (· == c)).reverse.dropWhile (· == c)).reverse)

namespace MongoDatabase

/-- Oracle for `execute_mongo_command` (`mongodb.rs` lines 38-59) plus the
`serde_json` parse of a `db.stats()` result: `parseStats` returns
`stats["dataSize"].as_u64()` of the parsed JSON, `none` when the parse
fails or the field is absent/ill-typed (`mongodb.rs` lines 87-91,
173-177; serde_json is an external library). -/
structure Env where
  run : String → String → ToolOutcome
  parseStats : String → Option Nat

/-- From `mongodb.rs` lines 38-59. -/
def execute_mongo_command (env : Env) (database command : String) : KResult String :=
  match env.run database command with
  | .spawnErr m => .error (.Database ("Failed to execute mongo command: " ++ m))
  | .exitErr se => .error (.Database ("mongo command failed: " ++ se))
  | .success out => .ok out

/-- From `mongodb.rs` lines 84 and 170. -/
def statsCommand : String := "JSON.stringify(db.stats())"

/-- From `mongodb.rs` line 93. -/
def versionCommand : String := "JSON.stringify(db.version())"

/-- From `mongodb.rs` lines 107-112. -/
def test_connection (env : Env) : KResult ConnectionStatus :=
  match execute_mongo_command env "admin" "db.runCommand(\x27ping\x27)" with
  | .ok _ => .ok .Connected
  | .error e => .ok (.Error e.toStr)

/-- From `mongodb.rs` lines 83-102: either stats command failing aborts this
helper with the error (the caller catches it). -/
def get_database_stats (env : Env) (database : String) : KResult DatabaseInfo :=
  match execute_mongo_command env database statsCommand with
  | .error e => .error e
  | .ok stats_result =>
    let size := env.parseStats stats_result
    match execute_mongo_command env database versionCommand with
    | .error e => .error e
    | .ok version_result =>
      let version := trimMatches '"' (trimChars version_result)
      .ok { name := database, size := size, schema_version := some version }

/-- Loop of `mongodb.rs` lines 114-133: a failed stats call still yields an
entry with absent fields (plus a warning), never an aborted listing. -/
def get_database_info_go (env : Env) : List String → List DatabaseInfo
  | [] => []
  | db :: rest =>
    match get_database_stats env db with
    | .ok dbi => dbi :: get_database_info_go env rest
    | .error _e => { name := db, size := none, schema_version := none } :: get_database_info_go env rest

/-- From `mongodb.rs` lines 114-133. -/
def get_database_info (cfg : DatabaseConfig) (env : Env) : KResult (List DatabaseInfo) :=
  .ok (get_database_info_go env cfg.databases)

/-- Loop of `mongodb.rs` lines 169-183: command and parse failures each
contribute nothing to the total. -/
def estimate_go (env : Env) (acc : Nat) : List String → Nat
  | [] => acc
  | db :: rest =>
    match execute_mongo_command env db statsCommand with
    | .ok stats_result =>
      match env.parseStats stats_result with
      | some n => estimate_go env (acc + n) rest
      | none => estimate_go env acc rest
    | .error _e => estimate_go env acc rest

/-- From `mongodb.rs` lines 166-187; `(total_size as f64 * 1.25) as u64`
modelled exactly over the rationals as ⌊total·5/4⌋. -/
def estimate_backup_size (cfg : DatabaseConfig) (env : Env) : KResult Nat :=
  .ok (estimate_go env 0 cfg.databases * 5 / 4)

end MongoDatabase

/-! ## SQLite backend operations (`sqlite.rs`) -/

namespace SQLiteDatabase

/-- Oracle for the external effects of the SQLite backend.  Each field records
the outcome of one concrete call, keyed by the path it is made on:
`none` / `.ok` means success, `some msg` / `.error msg` carries the
display text of the underlying library error. -/
structure Env where
  /-- From `Path::exists()`. -/
  pathExists : String → Bool
  /-- From `Connection::open_with_flags(READ_ONLY | NO_MUTEX)`. -/
  openRO : String → Option String
  /-- From `Connection::open` on the destination path (creates the file). -/
  openDest : String → Option String
  /-- From `tokio::fs::create_dir_all`. -/
  createDir : String → Option String
  /-- From `Backup::new(&source, &mut dest)`, keyed by the source path. -/
  backupInit : String → Option String
  /-- From `backup.run_to_completion(10, 1000ms, None)`, keyed by the source path. -/
  backupRun : String → Option String
  /-- From `source_conn.close()`, keyed by the source path. -/
  closeSource : String → Option String
  /-- From `dest_conn.close()`, keyed by the destination path. -/
  closeDest : String → Option String
  /-- From `std::fs::metadata(path).len()`. -/
  fileSize : String → Except String Nat
  /-- From `conn.query_row("SELECT sqlite_version()", …)` on an opened connection. -/
  versionQuery : String → Except String String

/-- From `sqlite.rs` lines 64-68. -/
def get_database_file_size (env : Env) (db_path : String) : KResult Nat :=
  match env.fileSize db_path with
  | .error m => .error (.Database ("Failed to get database file size: " ++ m))
  | .ok n => .ok n

/-- From `sqlite.rs` lines 70-77. -/
def test_database_connection (env : Env) (db_path : String) : KResult Unit :=
  match env.openRO db_path with
  | some m => .error (.Database ("Failed to open SQLite database: " ++ m))
  | none => .ok ()

/-- Loop of `sqlite.rs` lines 82-90: the first database file that fails to
open converts to an `Ok(Error …)` status. -/
def test_connection_go (env : Env) (host : String) : List String → KResult ConnectionStatus
  | [] => .ok .Connected
  | db :: rest =>
    match test_database_connection env (pathJoin host db) with
    | .error e => .ok (.Error e.toStr)
    | .ok _ => test_connection_go env host rest

/-- From `sqlite.rs` lines 82-90. -/
def test_connection (cfg : DatabaseConfig) (env : Env) : KResult ConnectionStatus :=
  test_connection_go env cfg.host cfg.databases

/-- One entry of the loop in `sqlite.rs` lines 95-128: size is the file
size when the file exists and metadata succeeds; version is the
`sqlite_version()` answer when the file exists, opens, and the query
succeeds; every failure just leaves the field absent. -/
def infoEntry (env : Env) (host db : String) : DatabaseInfo :=
  let db_path := pathJoin host db
  let size :=
    if env.pathExists db_path then (get_database_file_size env db_path).toOption
    else none
  let version :=
    if env.pathExists db_path then
      match env.openRO db_path with
      | none => (env.versionQuery db_path).toOption
      | some _m => none
    else none
  { name := db, size := size, schema_version := version }

/-- From `sqlite.rs` lines 92-132: always `Ok`, one entry per configured name. -/
def get_database_info (cfg : DatabaseConfig) (env : Env) : KResult (List DatabaseInfo) :=
  .ok (cfg.databases.map (infoEntry env cfg.host))

/-- Loop of `sqlite.rs` lines 170-175: a failed metadata call contributes
nothing. -/
def estimate_go (env : Env) (host : String) (acc : Nat) : List String → Nat
  | [] => acc
  | db :: rest =>
    match get_database_file_size env (pathJoin host db) with
    | .ok n => estimate_go env host (acc + n) rest
    | .error _e => estimate_go env host acc rest

/-- From `sqlite.rs` lines 167-179: raw file-size sum, no overhead multiplier. -/
def estimate_backup_size (cfg : DatabaseConfig) (env : Env) : KResult Nat :=
  .ok (estimate_go env cfg.host 0 cfg.databases)

end SQLiteDatabase

/-! ## Backup execution with filesystem/subprocess event traces

The `backup` of each backend is embedded as a function returning its result
together with the list of external effects it performed, in order.  An
event is recorded when the corresponding call is made, whether or not it
succeeds. -/

/-- External effects of the backup paths. -/
inductive FsEvent where
  /-- From `fs::create_dir_all` on the destination directory. -/
  | createDir (path : String)
  /-- The engine writes captured tool stdout to this file (`fs::write`). -/
  | writeFile (path : String)
  /-- An external dump tool is invoked for one logical database. -/
  | toolRun (tool : String) (db : String)
  /-- The invoked tool is instructed (via a flag) to write this file itself. -/
  | toolOutFile (path : String)
  /-- The invoked tool is instructed to manage this output directory
  (`mongodump --out`). -/
  | toolOutDir (path : String)
  /-- SQLite: the source database file is opened read-only. -/
  | openSource (path : String)
  /-- SQLite: the destination database file is opened/created. -/
  | openDest (path : String)
  /-- SQLite: the source connection is closed — `explicit = true` for the
  `close()` call in the code, `false` for the implicit close performed by
  the rusqlite `Drop` when an early return drops a live connection. -/
  | closeSource (explicit : Bool)
  /-- SQLite: likewise for the destination connection. -/
  | closeDest (explicit : Bool)
deriving DecidableEq, Repr

namespace MySQLDatabase

/-- Oracle for the MySQL backup path. -/
structure BackupEnv where
  /-- From `tokio::fs::create_dir_all` (`mysql.rs` line 119). -/
  createDir : String → Option String
  /-- The `mysqldump` invocation for one database (`mysql.rs` lines 46-60). -/
  dump : String → ToolOutcome
  /-- From `tokio::fs::write` of the captured stdout (`mysql.rs` line 69). -/
  write : String → Option String

/-- From `mysql.rs` lines 45-73: run `mysqldump`, then write its captured stdout
to `<output_path>/<database>.sql`. -/
def execute_mysqldump (env : BackupEnv) (database output_path : String) :
    KResult Unit × List FsEvent :=
  let output_file := pathJoin output_path (database ++ ".sql")
  match env.dump database with
  | .spawnErr m =>
      (.error (.Database ("Failed to execute mysqldump: " ++ m)),
       [.toolRun "mysqldump" database])
  | .exitErr se =>
      (.error (.Database ("mysqldump failed: " ++ se)),
       [.toolRun "mysqldump" database])
  | .success _stdout =>
      match env.write output_file with
      | some m =>
          (.error (.IoError m), [.toolRun "mysqldump" database, .writeFile output_file])
      | none =>
          (.ok (), [.toolRun "mysqldump" database, .writeFile output_file])

/-- Loop of `mysql.rs` lines 122-124: `?` on each dump. -/
def backup_go (env : BackupEnv) (backup_path : String) :
    List String → KResult Unit × List FsEvent
  | [] => (.ok (), [])
  | db :: rest =>
    match execute_mysqldump env db backup_path with
    | (.error e, tr) => (.error e, tr)
    | (.ok _u, tr) =>
      let (r, tr2) := backup_go env backup_path rest
      (r, tr ++ tr2)

/-- From `mysql.rs` lines 118-127. -/
def backup (cfg : DatabaseConfig) (env : BackupEnv) (backup_path : String) :
    KResult Unit × List FsEvent :=
  match env.createDir backup_path with
  | some m => (.error (.IoError m), [.createDir backup_path])
  | none =>
    let (r, tr) := backup_go env backup_path cfg.databases
    (r, .createDir backup_path :: tr)

end MySQLDatabase

namespace PostgreSQLDatabase

/-- Oracle for the PostgreSQL backup path. -/
structure BackupEnv where
  /-- From `tokio::fs::create_dir_all` (`postgres.rs` line 135). -/
  createDir : String → Option String
  /-- The `pg_dump` invocation for one database (`postgres.rs` lines 64-83). -/
  dump : String → ToolOutcome

/-- From `postgres.rs` lines 63-93: `pg_dump` is told via `--file` to write
`<output_path>/<database>.dump` itself. -/
def execute_pg_dump (env : BackupEnv) (database output_path : String) :
    KResult Unit × List FsEvent :=
  let output_file := pathJoin output_path (database ++ ".dump")
  match env.dump database with
  | .spawnErr m =>
      (.error (.Database ("Failed to execute pg_dump: " ++ m)),
       [.toolRun "pg_dump" database, .toolOutFile output_file])
  | .exitErr se =>
      (.error (.Database ("pg_dump failed: " ++ se)),
       [.toolRun "pg_dump" database, .toolOutFile output_file])
  | .success _stdout =>
      (.ok (), [.toolRun "pg_dump" database, .toolOutFile output_file])

/-- Loop of `postgres.rs` lines 138-140. -/
def backup_go (env : BackupEnv) (backup_path : String) :
    List String → KResult Unit × List FsEvent
  | [] => (.ok (), [])
  | db :: rest =>
    match execute_pg_dump env db backup_path with
    | (.error e, tr) => (.error e, tr)
    | (.ok _u, tr) =>
      let (r, tr2) := backup_go env backup_path rest
      (r, tr ++ tr2)

/-- From `postgres.rs` lines 134-143. -/
def backup (cfg : DatabaseConfig) (env : BackupEnv) (backup_path : String) :
    KResult Unit × List FsEvent :=
  match env.createDir backup_path with
  | some m => (.error (.IoError m), [.createDir backup_path])
  | none =>
    let (r, tr) := backup_go env backup_path cfg.databases
    (r, .createDir backup_path :: tr)

end PostgreSQLDatabase

namespace MongoDatabase

/-- Oracle for the MongoDB backup path. -/
structure BackupEnv where
  /-- From `tokio::fs::create_dir_all` (`mongodb.rs` line 136). -/
  createDir : String → Option String
  /-- The `mongodump` invocation for one database (`mongodb.rs` lines 62-71). -/
  dump : String → ToolOutcome

/-- From `mongodb.rs` lines 61-81: `mongodump --db=<database> --out=<output_path>
--gzip`; the tool manages its own subdirectory under the destination. -/
def execute_mongodump (env : BackupEnv) (database output_path : String) :
    KResult Unit × List FsEvent :=
  match env.dump database with
  | .spawnErr m =>
      (.error (.Database ("Failed to execute mongodump: " ++ m)),
       [.toolRun "mongodump" database, .toolOutDir output_path])
  | .exitErr se =>
      (.error (.Database ("mongodump failed: " ++ se)),
       [.toolRun "mongodump" database, .toolOutDir output_path])
  | .success _stdout =>
      (.ok (), [.toolRun "mongodump" database, .toolOutDir output_path])

/-- Loop of `mongodb.rs` lines 139-141. -/
def backup_go (env : BackupEnv) (backup_path : String) :
    List String → KResult Unit × List FsEvent
  | [] => (.ok (), [])
  | db :: rest =>
    match execute_mongodump env db backup_path with
    | (.error e, tr) => (.error e, tr)
    | (.ok _u, tr) =>
      let (r, tr2) := backup_go env backup_path rest
      (r, tr ++ tr2)

/-- From `mongodb.rs` lines 135-144. -/
def backup (cfg : DatabaseConfig) (env : BackupEnv) (backup_path : String) :
    KResult Unit × List FsEvent :=
  match env.createDir backup_path with
  | some m => (.error (.IoError m), [.createDir backup_path])
  | none =>
    let (r, tr) := backup_go env backup_path cfg.databases
    (r, .createDir backup_path :: tr)

end MongoDatabase

namespace SQLiteDatabase

/-- One iteration of the loop in `sqlite.rs` lines 20-59, for a single
configured database file.  An early `?`-return drops the connections that
are still live; the rusqlite `Drop` impl closes the underlying handle, so the
model records an implicit (non-explicit) close for each live connection, in
the reverse-declaration drop order of Rust (destination before source). -/
def backup_one (env : Env) (host backup_path db : String) :
    KResult Unit × List FsEvent :=
  let source_path := pathJoin host db
  match env.pathExists source_path with
  | false =>
    (.error (.Database ("Database file not found: " ++ source_path)), [])
  | true =>
    let dest_path := pathJoin backup_path (db ++ ".bak")
    match env.createDir backup_path with
    | some m => (.error (.IoError m), [.createDir backup_path])
    | none =>
      match env.openRO source_path with
      | some m =>
          (.error (.Database ("Failed to open source SQLite DB: " ++ m)),
           [.createDir backup_path])
      | none =>
        match env.openDest dest_path with
        | some m =>
            (.error (.Database ("Failed to open destination SQLite DB: " ++ m)),
             [.createDir backup_path, .openSource source_path, .closeSource false])
        | none =>
          match env.backupInit source_path with
          | some m =>
              (.error (.Database ("Failed to initialize backup: " ++ m)),
               [.createDir backup_path, .openSource source_path, .openDest dest_path,
                .closeDest false, .closeSource false])
          | none =>
            match env.backupRun source_path with
            | some m =>
                (.error (.Database ("Failed to execute backup: " ++ m)),
                 [.createDir backup_path, .openSource source_path, .openDest dest_path,
                  .closeDest false, .closeSource false])
            | none =>
              match env.closeSource source_path with
              | some m =>
                  (.error (.Database ("Failed to close source connection: " ++ m)),
                   [.createDir backup_path, .openSource source_path, .openDest dest_path,
                    .closeSource true, .closeDest false])
              | none =>
                match env.closeDest dest_path with
                | some m =>
                    (.error (.Database ("Failed to close destination connection: " ++ m)),
                     [.createDir backup_path, .openSource source_path, .openDest dest_path,
                      .closeSource true, .closeDest true])
                | none =>
                    (.ok (), [.createDir backup_path, .openSource source_path,
                      .openDest dest_path, .closeSource true, .closeDest true])

/-- Loop of `sqlite.rs` lines 20-59: the first hard failure propagates. -/
def backup_database_go (env : Env) (host backup_path : String) :
    List String → KResult Unit × List FsEvent
  | [] => (.ok (), [])
  | db :: rest =>
    match backup_one env host backup_path db with
    | (.error e, tr) => (.error e, tr)
    | (.ok _u, tr) =>
      let (r, tr2) := backup_database_go env host backup_path rest
      (r, tr ++ tr2)

/-- From `sqlite.rs` lines 19-62. -/
def backup_database (cfg : DatabaseConfig) (env : Env) (backup_path : String) :
    KResult Unit × List FsEvent :=
  backup_database_go env cfg.host backup_path cfg.databases

/-- From `sqlite.rs` lines 134-136: `backup` just delegates to `backup_database`. -/
def backup (cfg : DatabaseConfig) (env : Env) (backup_path : String) :
    KResult Unit × List FsEvent :=
  backup_database cfg env backup_path

end SQLiteDatabase

/-- The per-database artifact paths named in a trace: files the engine
writes itself, files a tool is instructed to write, and destination
database files the SQLite path opens/creates. -/
def artifactsOf : List FsEvent → List String
  | [] => []
  | .writeFile p :: rest => p :: artifactsOf rest
  | .toolOutFile p :: rest => p :: artifactsOf rest
  | .openDest p :: rest => p :: artifactsOf rest
  | _ :: rest => artifactsOf rest

/-- The connection-close events of a trace, in order. -/
def closesOf : List FsEvent → List FsEvent
  | [] => []
  | .closeSource b :: rest => .closeSource b :: closesOf rest
  | .closeDest b :: rest => .closeDest b :: closesOf rest
  | _ :: rest => closesOf rest

/-! ## Backup orchestrator (`backup/performer.rs`) -/

/-- From `config.rs` lines 13-19: which backend kinds the run configures. -/
structure Databases where
  mysql : Option DatabaseConfig
  postgres : Option DatabaseConfig
  sqlite : Option DatabaseConfig
  mongodb : Option DatabaseConfig

/-- Contract calls the orchestrator makes on a backend, tagged with the
backend type string. -/
inductive OrchEvent where
  | createConn (tag : String)
  | probe (tag : String)
  | listInfo (tag : String)
  | estimateSize (tag : String)
  | runBackup (tag : String)
  | validateCfg (tag : String)
deriving DecidableEq, Repr

/-- The behavior of one constructed backend as the orchestrator observes it:
the results of the four contract calls `perform_backup` makes.  (The trait
also has `validate_config` and `database_type`; the orchestrator calls
neither on the behavior — see `perform_backup`.) -/
structure BackendBehavior where
  test_connection : KResult ConnectionStatus
  get_database_info : KResult (List DatabaseInfo)
  estimate_backup_size : KResult Nat
  backup : KResult Unit

namespace BackupPerformer

/-- From `performer.rs` lines 59-95: probe (hard failure on `Error` or
`Disconnected`), list, estimate, backup, each propagating via `?`. -/
def perform_backup (b : BackendBehavior) (db_type : String) :
    KResult Unit × List OrchEvent :=
  match b.test_connection with
  | .error e => (.error e, [.probe db_type])
  | .ok status =>
    match status with
    | .Error e =>
        (.error (.Database ("Failed to connect to " ++ db_type ++ " database: " ++ e)),
         [.probe db_type])
    | .Disconnected =>
        (.error (.Database (db_type ++ " database is disconnected")),
         [.probe db_type])
    | .Connected =>
      match b.get_database_info with
      | .error e => (.error e, [.probe db_type, .listInfo db_type])
      | .ok _infos =>
        match b.estimate_backup_size with
        | .error e => (.error e, [.probe db_type, .listInfo db_type, .estimateSize db_type])
        | .ok _n =>
          match b.backup with
          | .error e =>
              (.error e,
               [.probe db_type, .listInfo db_type, .estimateSize db_type, .runBackup db_type])
          | .ok _u =>
              (.ok (),
               [.probe db_type, .listInfo db_type, .estimateSize db_type, .runBackup db_type])

/-- One `if let Some(cfg) = …` block of `performer.rs` lines 21-50: build
the backend via the factory, run `perform_backup`, and report whether this
block ran (the `backup_completed = true` assignment). -/
def execStep (cfgOpt : Option DatabaseConfig) (tag : String)
    (env : String → BackendBehavior) : KResult Bool × List OrchEvent :=
  match cfgOpt with
  | none => (.ok false, [])
  | some _cfg =>
    match DatabaseConnectionFactory.create_connection tag with
    | .error e => (.error e, [.createConn tag])
    | .ok _b =>
      match perform_backup (env tag) tag with
      | (.error e, tr) => (.error e, .createConn tag :: tr)
      | (.ok _u, tr) => (.ok true, .createConn tag :: tr)

/-- From `performer.rs` lines 17-57: the four backend kinds in source order
(sqlite, mysql, postgres, mongodb), then the `backup_completed` check. -/
def execute (dbs : Databases) (env : String → BackendBehavior) :
    KResult Unit × List OrchEvent :=
  match execStep dbs.sqlite "sqlite" env with
  | (.error e, t1) => (.error e, t1)
  | (.ok c1, t1) =>
    match execStep dbs.mysql "mysql" env with
    | (.error e, t2) => (.error e, t1 ++ t2)
    | (.ok c2, t2) =>
      match execStep dbs.postgres "postgres" env with
      | (.error e, t3) => (.error e, t1 ++ t2 ++ t3)
      | (.ok c3, t3) =>
        match execStep dbs.mongodb "mongodb" env with
        | (.error e, t4) => (.error e, t1 ++ t2 ++ t3 ++ t4)
        | (.ok c4, t4) =>
          if c1 || c2 || c3 || c4 then (.ok (), t1 ++ t2 ++ t3 ++ t4)
          else (.error (.Config "No database configurations found"), t1 ++ t2 ++ t3 ++ t4)

end BackupPerformer

/-- A `KResult` value that is a `Config`-kind error. -/
def isConfigError {α : Type} : KResult α → Prop
  | .error (.Config _) => True
  | _ => False

instance {α : Type} (r : KResult α) : Decidable (isConfigError r) := by
  unfold isConfigError
  split <;> infer_instance

/-- C5: for every backend variant, a `BackendConfig` whose database-name
set is empty makes `validate_config` return a Config-kind error, whatever
the other fields (and, for SQLite, whatever the filesystem says). -/
theorem validate_config_empty_databases_config_error
    (cfg : DatabaseConfig) (pathExists : String → Bool)
    (h : cfg.databases = []) :
    isConfigError (MySQLDatabase.validate_config cfg) ∧
    isConfigError (PostgreSQLDatabase.validate_config cfg) ∧
    isConfigError (MongoDatabase.validate_config cfg) ∧
    isConfigError (SQLiteDatabase.validate_config cfg pathExists) := by
  refine ⟨?_, ?_, ?_, ?_⟩ <;>
    simp only [MySQLDatabase.validate_config, PostgreSQLDatabase.validate_config,
      MongoDatabase.validate_config, SQLiteDatabase.validate_config, h] <;>
    split_ifs <;> simp_all [isConfigError]

/-- C5 witness: the theorem applied at a concrete configuration with an
empty database list. -/
theorem validate_config_empty_databases_config_error_witness :
    isConfigError (MySQLDatabase.validate_config ⟨"h", 3306, "u", "p", []⟩) ∧
    isConfigError (PostgreSQLDatabase.validate_config ⟨"h", 3306, "u", "p", []⟩) ∧
    isConfigError (MongoDatabase.validate_config ⟨"h", 3306, "u", "p", []⟩) ∧
    isConfigError (SQLiteDatabase.validate_config ⟨"h", 3306, "u", "p", []⟩ (fun _ => true)) :=
  validate_config_empty_databases_config_error ⟨"h", 3306, "u", "p", []⟩ (fun _ => true) rfl

/-- C6: an unknown backend-type tag makes the factory fail with a
Database-kind error whose message names the tag; each supported tag yields
a constructed backend whose `database_type` equals the tag. -/
theorem create_connection_spec (t : String) :
    (t ∉ DatabaseConnectionFactory.supported_types →
      DatabaseConnectionFactory.create_connection t =
        .error (.Database ("Unsupported database type: " ++ t))) ∧
    (t ∈ DatabaseConnectionFactory.supported_types →
      ∃ b : BackendKind,
        DatabaseConnectionFactory.create_connection t = .ok b ∧
        b.database_type = t) := by
  constructor
  · intro h
    simp only [DatabaseConnectionFactory.supported_types, List.mem_cons,
      List.mem_singleton, not_or] at h
    obtain ⟨h1, h2, h3, h4⟩ := h
    simp [DatabaseConnectionFactory.create_connection, h1, h2, h3, h4]
  · intro h
    simp only [DatabaseConnectionFactory.supported_types, List.mem_cons,
      List.not_mem_nil, or_false] at h
    rcases h with h | h | h | h <;> subst h
    · exact ⟨.mysql, rfl, rfl⟩
    · exact ⟨.postgres, rfl, rfl⟩
    · exact ⟨.sqlite, rfl, rfl⟩
    · exact ⟨.mongodb, rfl, rfl⟩

/-- C6 witness: the theorem applied to the unknown tag "oracle" and the
supported tag "mysql". -/
theorem create_connection_spec_witness :
    DatabaseConnectionFactory.create_connection "oracle" =
      .error (.Database ("Unsupported database type: " ++ "oracle")) ∧
    ∃ b : BackendKind,
      DatabaseConnectionFactory.create_connection "mysql" = .ok b ∧
      b.database_type = "mysql" :=
  ⟨(create_connection_spec "oracle").1 (by decide),
   (create_connection_spec "mysql").2 (by decide)⟩

/-- The SQLite probe loop always produces an `Ok` status: the first file
that fails to open short-circuits to `Ok(Error …)`. -/
theorem sqlite_test_connection_go_ok (env : SQLiteDatabase.Env) (host : String)
    (l : List String) : ∃ s, SQLiteDatabase.test_connection_go env host l = .ok s := by
  induction l with
  | nil => exact ⟨.Connected, rfl⟩
  | cons db rest ih =>
    unfold SQLiteDatabase.test_connection_go
    split
    · exact ⟨_, rfl⟩
    · exact ih

/-- Full behaviour of the SQLite probe loop: if every configured file opens,
the status is `Connected`; if any configured file fails to open, the status
is an `Ok(Error …)` value (carrying the message of the first failure). -/
theorem sqlite_test_connection_go_spec (env : SQLiteDatabase.Env) (host : String)
    (l : List String) :
    ((∀ db ∈ l, env.openRO (pathJoin host db) = none) →
      SQLiteDatabase.test_connection_go env host l = .ok .Connected) ∧
    (∀ db ∈ l, ∀ m, env.openRO (pathJoin host db) = some m →
      ∃ msg, SQLiteDatabase.test_connection_go env host l = .ok (.Error msg)) := by
  induction l with
  | nil =>
    exact ⟨fun _ => rfl, fun db hdb => absurd hdb (List.not_mem_nil db)⟩
  | cons a rest ih =>
    constructor
    · intro hall
      have ha := hall a (List.mem_cons_self a rest)
      have hrest := ih.1 (fun db hdb => hall db (List.mem_cons_of_mem a hdb))
      simp [SQLiteDatabase.test_connection_go, SQLiteDatabase.test_database_connection,
        ha, hrest]
    · intro db hdb m hm
      cases ha : env.openRO (pathJoin host a) with
      | some m0 =>
          refine ⟨"Database error: " ++ ("Failed to open SQLite database: " ++ m0), ?_⟩
          simp [SQLiteDatabase.test_connection_go, SQLiteDatabase.test_database_connection,
            ha, Err.toStr]
      | none =>
          rcases List.mem_cons.mp hdb with h | h
          · subst h; rw [hm] at ha; cases ha
          · obtain ⟨msg, hmsg⟩ := ih.2 db h m hm
            exact ⟨msg, by simp [SQLiteDatabase.test_connection_go,
              SQLiteDatabase.test_database_connection, ha, hmsg]⟩

/-- C3: for every backend variant and configuration, `test_connection`
never returns `Err`, and every probe failure is converted into an
`Ok(ConnectionStatus::Error(message))` value carrying the display text of
the underlying failure: spawn failures and non-zero exits of the trivial
query/ping for MySQL, PostgreSQL and MongoDB, and a failed read-only file
open for SQLite; a successful probe yields `Ok(Connected)`. -/
theorem test_connection_never_propagates
    (cfg : DatabaseConfig) (envM : MySQLDatabase.Env) (envP : PostgreSQLDatabase.Env)
    (envG : MongoDatabase.Env) (envS : SQLiteDatabase.Env) :
    ((∃ s, MySQLDatabase.test_connection envM = .ok s) ∧
     (∃ s, PostgreSQLDatabase.test_connection envP = .ok s) ∧
     (∃ s, MongoDatabase.test_connection envG = .ok s) ∧
     (∃ s, SQLiteDatabase.test_connection cfg envS = .ok s)) ∧
    ((∀ out, envM.run "--execute=SELECT 1" = .success out →
        MySQLDatabase.test_connection envM = .ok .Connected) ∧
     (∀ m, envM.run "--execute=SELECT 1" = .spawnErr m →
        MySQLDatabase.test_connection envM =
          .ok (.Error ("Database error: " ++ ("Failed to execute mysql command: " ++ m)))) ∧
     (∀ se, envM.run "--execute=SELECT 1" = .exitErr se →
        MySQLDatabase.test_connection envM =
          .ok (.Error ("Database error: " ++ ("MySQL command failed: " ++ se))))) ∧
    ((∀ out, envP.run "postgres" "SELECT 1;" = .success out →
        PostgreSQLDatabase.test_connection envP = .ok .Connected) ∧
     (∀ m, envP.run "postgres" "SELECT 1;" = .spawnErr m →
        PostgreSQLDatabase.test_connection envP =
          .ok (.Error ("Database error: " ++ ("Failed to execute psql command: " ++ m)))) ∧
     (∀ se, envP.run "postgres" "SELECT 1;" = .exitErr se →
        PostgreSQLDatabase.test_connection envP =
          .ok (.Error ("Database error: " ++ ("psql command failed: " ++ se))))) ∧
    ((∀ out, envG.run "admin" "db.runCommand(\x27ping\x27)" = .success out →
        MongoDatabase.test_connection envG = .ok .Connected) ∧
     (∀ m, envG.run "admin" "db.runCommand(\x27ping\x27)" = .spawnErr m →
        MongoDatabase.test_connection envG =
          .ok (.Error ("Database error: " ++ ("Failed to execute mongo command: " ++ m)))) ∧
     (∀ se, envG.run "admin" "db.runCommand(\x27ping\x27)" = .exitErr se →
        MongoDatabase.test_connection envG =
          .ok (.Error ("Database error: " ++ ("mongo command failed: " ++ se))))) ∧
    (((∀ db ∈ cfg.databases, envS.openRO (pathJoin cfg.host db) = none) →
        SQLiteDatabase.test_connection cfg envS = .ok .Connected) ∧
     (∀ db ∈ cfg.databases, ∀ m, envS.openRO (pathJoin cfg.host db) = some m →
        ∃ msg, SQLiteDatabase.test_connection cfg envS = .ok (.Error msg))) := by
  refine ⟨⟨?_, ?_, ?_, ?_⟩, ⟨?_, ?_, ?_⟩, ⟨?_, ?_, ?_⟩, ⟨?_, ?_, ?_⟩, ?_, ?_⟩
  · unfold MySQLDatabase.test_connection
    split <;> exact ⟨_, rfl⟩
  · unfold PostgreSQLDatabase.test_connection
    split <;> exact ⟨_, rfl⟩
  · unfold MongoDatabase.test_connection
    split <;> exact ⟨_, rfl⟩
  · exact sqlite_test_connection_go_ok envS cfg.host cfg.databases
  · intro out h
    simp [MySQLDatabase.test_connection, MySQLDatabase.execute_mysql_command, h]
  · intro m h
    simp [MySQLDatabase.test_connection, MySQLDatabase.execute_mysql_command, h, Err.toStr]
  · intro se h
    simp [MySQLDatabase.test_connection, MySQLDatabase.execute_mysql_command, h, Err.toStr]
  · intro out h
    simp [PostgreSQLDatabase.test_connection, PostgreSQLDatabase.execute_psql_command, h]
  · intro m h
    simp [PostgreSQLDatabase.test_connection, PostgreSQLDatabase.execute_psql_command, h,
      Err.toStr]
  · intro se h
    simp [PostgreSQLDatabase.test_connection, PostgreSQLDatabase.execute_psql_command, h,
      Err.toStr]
  · intro out h
    simp [MongoDatabase.test_connection, MongoDatabase.execute_mongo_command, h]
  · intro m h
    simp [MongoDatabase.test_connection, MongoDatabase.execute_mongo_command, h, Err.toStr]
  · intro se h
    simp [MongoDatabase.test_connection, MongoDatabase.execute_mongo_command, h, Err.toStr]
  · exact (sqlite_test_connection_go_spec envS cfg.host cfg.databases).1
  · exact (sqlite_test_connection_go_spec envS cfg.host cfg.databases).2

/-- C3 witness: the theorem applied at concrete worlds — a mysql client
whose probe exits non-zero, a psql client whose probe exits non-zero, a
mongo client whose probe fails to spawn, a SQLite file that fails to open,
and a SQLite configuration whose single file opens fine. -/
theorem test_connection_never_propagates_witness :
    MySQLDatabase.test_connection ⟨fun _ => .exitErr "boom"⟩ =
      .ok (.Error ("Database error: " ++ ("MySQL command failed: " ++ "boom"))) ∧
    PostgreSQLDatabase.test_connection ⟨fun _ _ => .exitErr "boom"⟩ =
      .ok (.Error ("Database error: " ++ ("psql command failed: " ++ "boom"))) ∧
    MongoDatabase.test_connection ⟨fun _ _ => .spawnErr "missing", fun _ => none⟩ =
      .ok (.Error ("Database error: " ++ ("Failed to execute mongo command: " ++ "missing"))) ∧
    (∃ msg, SQLiteDatabase.test_connection ⟨"h", 0, "u", "p", ["d"]⟩
        ⟨fun _ => true, fun _ => some "locked", fun _ => none, fun _ => none, fun _ => none,
         fun _ => none, fun _ => none, fun _ => none, fun _ => .ok 0, fun _ => .ok "3.40"⟩ =
      .ok (.Error msg)) ∧
    SQLiteDatabase.test_connection ⟨"h", 0, "u", "p", ["d"]⟩
        ⟨fun _ => true, fun _ => none, fun _ => none, fun _ => none, fun _ => none,
         fun _ => none, fun _ => none, fun _ => none, fun _ => .ok 0, fun _ => .ok "3.40"⟩ =
      .ok .Connected := by
  have hfail := test_connection_never_propagates ⟨"h", 0, "u", "p", ["d"]⟩
    ⟨fun _ => .exitErr "boom"⟩ ⟨fun _ _ => .exitErr "boom"⟩
    ⟨fun _ _ => .spawnErr "missing", fun _ => none⟩
    ⟨fun _ => true, fun _ => some "locked", fun _ => none, fun _ => none, fun _ => none,
     fun _ => none, fun _ => none, fun _ => none, fun _ => .ok 0, fun _ => .ok "3.40"⟩
  have hok := test_connection_never_propagates ⟨"h", 0, "u", "p", ["d"]⟩
    ⟨fun _ => .exitErr "boom"⟩ ⟨fun _ _ => .exitErr "boom"⟩
    ⟨fun _ _ => .spawnErr "missing", fun _ => none⟩
    ⟨fun _ => true, fun _ => none, fun _ => none, fun _ => none, fun _ => none,
     fun _ => none, fun _ => none, fun _ => none, fun _ => .ok 0, fun _ => .ok "3.40"⟩
  exact ⟨hfail.2.1.2.2 "boom" rfl, hfail.2.2.1.2.2 "boom" rfl,
    hfail.2.2.2.1.2.1 "missing" rfl,
    hfail.2.2.2.2.2 "d" (by decide) "locked" rfl,
    hok.2.2.2.2.1 (fun db hdb => rfl)⟩

/-- C8: a run configuration populating none of the four backend kinds makes
the orchestrator fail with the Config-kind "No database configurations
found" error while performing no probe, listing, estimation, or backup
call at all (empty event trace), whatever the backends would have done. -/
theorem execute_no_backends_config_error (env : String → BackendBehavior) :
    BackupPerformer.execute ⟨none, none, none, none⟩ env =
      (.error (.Config "No database configurations found"), []) := rfl

/-- A successful `get_database_stats` reports the database it was asked about. -/
theorem mongo_stats_name (env : MongoDatabase.Env) (db : String) (dbi : DatabaseInfo)
    (h : MongoDatabase.get_database_stats env db = .ok dbi) : dbi.name = db := by
  unfold MongoDatabase.get_database_stats at h
  cases hs : MongoDatabase.execute_mongo_command env db MongoDatabase.statsCommand with
  | error e => rw [hs] at h; cases h
  | ok s =>
    rw [hs] at h
    cases hv : MongoDatabase.execute_mongo_command env db MongoDatabase.versionCommand with
    | error e => rw [hv] at h; cases h
    | ok v =>
      rw [hv] at h
      injection h with h'
      rw [← h']

/-- The Mongo listing loop emits one entry per configured name, in order. -/
theorem mongo_info_go_names (env : MongoDatabase.Env) (l : List String) :
    List.map DatabaseInfo.name (MongoDatabase.get_database_info_go env l) = l := by
  induction l with
  | nil => rfl
  | cons db rest ih =>
    cases h : MongoDatabase.get_database_stats env db with
    | ok dbi =>
        simp [MongoDatabase.get_database_info_go, h, mongo_stats_name env db dbi h, ih]
    | error e => simp [MongoDatabase.get_database_info_go, h, ih]

/-- If the stats command for a configured database cannot succeed, the Mongo
listing still contains an entry for it with both fields absent. -/
theorem mongo_info_go_fail_mem (env : MongoDatabase.Env) (l : List String) (db : String)
    (hdb : db ∈ l)
    (hfail : ∀ s, env.run db MongoDatabase.statsCommand ≠ .success s) :
    (⟨db, none, none⟩ : DatabaseInfo) ∈ MongoDatabase.get_database_info_go env l := by
  induction l with
  | nil => cases hdb
  | cons a rest ih =>
    rcases List.mem_cons.mp hdb with h | h
    · subst h
      have hst : ∃ e, MongoDatabase.get_database_stats env db = .error e := by
        unfold MongoDatabase.get_database_stats MongoDatabase.execute_mongo_command
        cases hs : env.run db MongoDatabase.statsCommand with
        | spawnErr m => exact ⟨_, rfl⟩
        | exitErr se => exact ⟨_, rfl⟩
        | success out => exact absurd hs (hfail out)
      obtain ⟨e, he⟩ := hst
      simp [MongoDatabase.get_database_info_go, he]
    · cases hstats : MongoDatabase.get_database_stats env a <;>
        simp [MongoDatabase.get_database_info_go, hstats] <;>
        exact Or.inr (ih h)

/-- C1 counterexample: a configuration with the single logical database
"db1" and a world in which every mysql client call exits non-zero; the
MySQL `get_database_info` returns an error instead of emitting a
`DatabaseInfo` entry with absent fields. -/
theorem mysql_info_abort_counterexample :
    MySQLDatabase.get_database_info ⟨"h", 3306, "u", "p", ["db1"]⟩
        ⟨fun _ => .exitErr "boom"⟩ =
      .error (.Database ("MySQL command failed: " ++ "boom")) := rfl

/-- C1 amended: only the SQLite and MongoDB listings tolerate per-database
query failures (entry emitted with size/version absent, one entry per
configured name); for MySQL and PostgreSQL a failed per-database query
aborts the whole listing with the propagated error. -/
theorem get_database_info_failure_tolerance
    (cfg : DatabaseConfig) (envS : SQLiteDatabase.Env) (envG : MongoDatabase.Env) :
    (∃ l, SQLiteDatabase.get_database_info cfg envS = .ok l ∧
      List.map DatabaseInfo.name l = cfg.databases) ∧
    (∃ l, MongoDatabase.get_database_info cfg envG = .ok l ∧
      List.map DatabaseInfo.name l = cfg.databases ∧
      ∀ db ∈ cfg.databases, (∀ s, envG.run db MongoDatabase.statsCommand ≠ .success s) →
        (⟨db, none, none⟩ : DatabaseInfo) ∈ l) ∧
    (∀ (envM : MySQLDatabase.Env) (db : String) (rest : List String) (e : String),
      cfg.databases = db :: rest →
      envM.run (MySQLDatabase.sizeInfoQuery db) = .exitErr e →
      MySQLDatabase.get_database_info cfg envM =
        .error (.Database ("MySQL command failed: " ++ e))) ∧
    (∀ (envP : PostgreSQLDatabase.Env) (db : String) (rest : List String) (e : String),
      cfg.databases = db :: rest →
      envP.run db PostgreSQLDatabase.sizeQuery = .exitErr e →
      PostgreSQLDatabase.get_database_info cfg envP =
        .error (.Database ("psql command failed: " ++ e))) := by
  refine ⟨⟨_, rfl, ?_⟩, ⟨_, rfl, mongo_info_go_names envG cfg.databases, ?_⟩, ?_, ?_⟩
  · rw [List.map_map]
    have hcomp : (DatabaseInfo.name ∘ SQLiteDatabase.infoEntry envS cfg.host) = id :=
      funext (fun db => rfl)
    rw [hcomp, List.map_id]
  · exact fun db hdb hfail => mongo_info_go_fail_mem envG cfg.databases db hdb hfail
  · intro envM db rest e h1 h2
    unfold MySQLDatabase.get_database_info
    rw [h1]
    simp [MySQLDatabase.get_database_info_go, MySQLDatabase.execute_mysql_command, h2]
  · intro envP db rest e h1 h2
    unfold PostgreSQLDatabase.get_database_info
    rw [h1]
    simp [PostgreSQLDatabase.get_database_info_go, PostgreSQLDatabase.execute_psql_command, h2]

/-- C1 witness: the amended theorem applied to the configuration
`{host := "h", databases := ["db1"]}` with concrete worlds: an all-failing
mongo client, an all-failing mysql client, an all-failing psql client, and
any SQLite filesystem. -/
theorem get_database_info_failure_tolerance_witness :
    (∃ l, SQLiteDatabase.get_database_info ⟨"h", 0, "u", "p", ["db1"]⟩
        ⟨fun _ => true, fun _ => none, fun _ => none, fun _ => none, fun _ => none,
         fun _ => none, fun _ => none, fun _ => none, fun _ => .ok 0, fun _ => .ok "3.40"⟩ = .ok l ∧
      List.map DatabaseInfo.name l = ["db1"]) ∧
    (∃ l, MongoDatabase.get_database_info ⟨"h", 0, "u", "p", ["db1"]⟩
        ⟨fun _ _ => .exitErr "x", fun _ => none⟩ = .ok l ∧
      (⟨"db1", none, none⟩ : DatabaseInfo) ∈ l) ∧
    MySQLDatabase.get_database_info ⟨"h", 0, "u", "p", ["db1"]⟩ ⟨fun _ => .exitErr "boom"⟩ =
      .error (.Database ("MySQL command failed: " ++ "boom")) ∧
    PostgreSQLDatabase.get_database_info ⟨"h", 0, "u", "p", ["db1"]⟩ ⟨fun _ _ => .exitErr "boom"⟩ =
      .error (.Database ("psql command failed: " ++ "boom")) := by
  obtain ⟨h1, h2, h3, h4⟩ := get_database_info_failure_tolerance
    ⟨"h", 0, "u", "p", ["db1"]⟩
    ⟨fun _ => true, fun _ => none, fun _ => none, fun _ => none, fun _ => none,
     fun _ => none, fun _ => none, fun _ => none, fun _ => .ok 0, fun _ => .ok "3.40"⟩
    ⟨fun _ _ => .exitErr "x", fun _ => none⟩
  obtain ⟨l, hl, hn, hmem⟩ := h2
  exact ⟨h1, ⟨l, hl, hmem "db1" (by simp) (fun s h => ToolOutcome.noConfusion h)⟩,
    h3 ⟨fun _ => .exitErr "boom"⟩ "db1" [] "boom" rfl rfl,
    h4 ⟨fun _ _ => .exitErr "boom"⟩ "db1" [] "boom" rfl rfl⟩

/-- The SQLite estimate loop sums exactly the file sizes whose metadata
call succeeds; a failed call contributes zero. -/
theorem sqlite_estimate_go_eq (env : SQLiteDatabase.Env) (host : String)
    (l : List String) (acc : Nat) :
    SQLiteDatabase.estimate_go env host acc l =
      acc + (l.map (fun db =>
        match env.fileSize (pathJoin host db) with
        | .ok n => n
        | .error _e => 0)).sum := by
  induction l generalizing acc with
  | nil => simp [SQLiteDatabase.estimate_go]
  | cons db rest ih =>
    cases h : env.fileSize (pathJoin host db) with
    | ok n =>
        simp [SQLiteDatabase.estimate_go, SQLiteDatabase.get_database_file_size, h, ih,
          Nat.add_assoc]
    | error m =>
        simp [SQLiteDatabase.estimate_go, SQLiteDatabase.get_database_file_size, h, ih]

/-- The Mongo estimate loop sums exactly the successfully-obtained,
successfully-parsed `dataSize` values; every failure contributes zero. -/
theorem mongo_estimate_go_eq (env : MongoDatabase.Env) (l : List String) (acc : Nat) :
    MongoDatabase.estimate_go env acc l =
      acc + (l.map (fun db =>
        match env.run db MongoDatabase.statsCommand with
        | .success out => (env.parseStats out).getD 0
        | .spawnErr _m => 0
        | .exitErr _m => 0)).sum := by
  induction l generalizing acc with
  | nil => simp [MongoDatabase.estimate_go]
  | cons db rest ih =>
    cases h : env.run db MongoDatabase.statsCommand with
    | success out =>
        cases hp : env.parseStats out with
        | some n =>
            simp [MongoDatabase.estimate_go, MongoDatabase.execute_mongo_command, h, hp, ih,
              Nat.add_assoc]
        | none =>
            simp [MongoDatabase.estimate_go, MongoDatabase.execute_mongo_command, h, hp, ih]
    | spawnErr m =>
        simp [MongoDatabase.estimate_go, MongoDatabase.execute_mongo_command, h, ih]
    | exitErr se =>
        simp [MongoDatabase.estimate_go, MongoDatabase.execute_mongo_command, h, ih]

/-- C2 counterexample: with a single configured database whose size query
exits non-zero, the PostgreSQL `estimate_backup_size` returns an error
instead of a byte count. -/
theorem postgres_estimate_abort_counterexample :
    PostgreSQLDatabase.estimate_backup_size ⟨"h", 5432, "u", "p", ["db1"]⟩
        ⟨fun _ _ => .exitErr "boom"⟩ =
      .error (.Database ("psql command failed: " ++ "boom")) := rfl

/-- C2 amended: only the SQLite and MongoDB estimators tolerate
per-database size-query failures (the failed database contributes zero and
a byte count is still returned); for MySQL and PostgreSQL a failed size
command aborts the estimate with the propagated error. -/
theorem estimate_backup_size_failure_tolerance
    (cfg : DatabaseConfig) (envS : SQLiteDatabase.Env) (envG : MongoDatabase.Env) :
    (SQLiteDatabase.estimate_backup_size cfg envS = .ok ((cfg.databases.map (fun db =>
        match envS.fileSize (pathJoin cfg.host db) with
        | .ok n => n
        | .error _e => 0)).sum)) ∧
    (MongoDatabase.estimate_backup_size cfg envG = .ok ((cfg.databases.map (fun db =>
        match envG.run db MongoDatabase.statsCommand with
        | .success out => (envG.parseStats out).getD 0
        | .spawnErr _m => 0
        | .exitErr _m => 0)).sum * 5 / 4)) ∧
    (∀ (envM : MySQLDatabase.Env) (db : String) (rest : List String) (e : String),
      cfg.databases = db :: rest →
      envM.run (MySQLDatabase.sizeEstQuery db) = .exitErr e →
      MySQLDatabase.estimate_backup_size cfg envM =
        .error (.Database ("MySQL command failed: " ++ e))) ∧
    (∀ (envP : PostgreSQLDatabase.Env) (db : String) (rest : List String) (e : String),
      cfg.databases = db :: rest →
      envP.run db PostgreSQLDatabase.sizeQuery = .exitErr e →
      PostgreSQLDatabase.estimate_backup_size cfg envP =
        .error (.Database ("psql command failed: " ++ e))) := by
  refine ⟨?_, ?_, ?_, ?_⟩
  · unfold SQLiteDatabase.estimate_backup_size
    rw [sqlite_estimate_go_eq, Nat.zero_add]
  · unfold MongoDatabase.estimate_backup_size
    rw [mongo_estimate_go_eq, Nat.zero_add]
  · intro envM db rest e h1 h2
    unfold MySQLDatabase.estimate_backup_size MySQLDatabase.estimate_go
    rw [h1]
    simp [MySQLDatabase.estimate_go, MySQLDatabase.execute_mysql_command, h2]
  · intro envP db rest e h1 h2
    unfold PostgreSQLDatabase.estimate_backup_size PostgreSQLDatabase.estimate_go
    rw [h1]
    simp [PostgreSQLDatabase.estimate_go, PostgreSQLDatabase.execute_psql_command, h2]

/-- C2 witness: the amended theorem applied at a single-database
configuration with a failing filesystem (SQLite), a failing mongo client,
a failing mysql client and a failing psql client. -/
theorem estimate_backup_size_failure_tolerance_witness :
    SQLiteDatabase.estimate_backup_size ⟨"h", 0, "u", "p", ["db1"]⟩
        ⟨fun _ => true, fun _ => none, fun _ => none, fun _ => none, fun _ => none,
         fun _ => none, fun _ => none, fun _ => none, fun _ => .error "gone",
         fun _ => .ok "3.40"⟩ = .ok 0 ∧
    MongoDatabase.estimate_backup_size ⟨"h", 0, "u", "p", ["db1"]⟩
        ⟨fun _ _ => .exitErr "x", fun _ => none⟩ = .ok 0 ∧
    MySQLDatabase.estimate_backup_size ⟨"h", 0, "u", "p", ["db1"]⟩ ⟨fun _ => .exitErr "boom"⟩ =
      .error (.Database ("MySQL command failed: " ++ "boom")) ∧
    PostgreSQLDatabase.estimate_backup_size ⟨"h", 0, "u", "p", ["db1"]⟩
        ⟨fun _ _ => .exitErr "boom"⟩ =
      .error (.Database ("psql command failed: " ++ "boom")) := by
  obtain ⟨h1, h2, h3, h4⟩ := estimate_backup_size_failure_tolerance
    ⟨"h", 0, "u", "p", ["db1"]⟩
    ⟨fun _ => true, fun _ => none, fun _ => none, fun _ => none, fun _ => none,
     fun _ => none, fun _ => none, fun _ => none, fun _ => .error "gone", fun _ => .ok "3.40"⟩
    ⟨fun _ _ => .exitErr "x", fun _ => none⟩
  exact ⟨by simpa using h1, by simpa using h2,
    h3 ⟨fun _ => .exitErr "boom"⟩ "db1" [] "boom" rfl rfl,
    h4 ⟨fun _ _ => .exitErr "boom"⟩ "db1" [] "boom" rfl rfl⟩

/-- MySQL estimate loop under all-successful, all-parseable size queries. -/
theorem mysql_estimate_go_all_success (env : MySQLDatabase.Env) (sizes : String → Nat)
    (l : List String) (acc : Nat)
    (h : ∀ db ∈ l, ∃ out, env.run (MySQLDatabase.sizeEstQuery db) = .success out ∧
      (linesSkip1Head out).bind parseU64 = some (sizes db)) :
    MySQLDatabase.estimate_go env acc l = .ok (acc + (l.map sizes).sum) := by
  induction l generalizing acc with
  | nil => simp [MySQLDatabase.estimate_go]
  | cons db rest ih =>
    obtain ⟨out, hrun, hparse⟩ := h db (List.mem_cons_self db rest)
    have hrest := fun d hd => h d (List.mem_cons_of_mem db hd)
    simp only [MySQLDatabase.estimate_go, MySQLDatabase.execute_mysql_command, hrun, hparse]
    rw [ih (acc + sizes db) hrest]
    simp [Nat.add_assoc]

/-- PostgreSQL estimate loop under all-successful, all-parseable size
queries. -/
theorem postgres_estimate_go_all_success (env : PostgreSQLDatabase.Env) (sizes : String → Nat)
    (l : List String) (acc : Nat)
    (h : ∀ db ∈ l, ∃ out, env.run db PostgreSQLDatabase.sizeQuery = .success out ∧
      parseU64 (trimChars out) = some (sizes db)) :
    PostgreSQLDatabase.estimate_go env acc l = .ok (acc + (l.map sizes).sum) := by
  induction l generalizing acc with
  | nil => simp [PostgreSQLDatabase.estimate_go]
  | cons db rest ih =>
    obtain ⟨out, hrun, hparse⟩ := h db (List.mem_cons_self db rest)
    have hrest := fun d hd => h d (List.mem_cons_of_mem db hd)
    simp only [PostgreSQLDatabase.estimate_go, PostgreSQLDatabase.execute_psql_command,
      hrun, hparse]
    rw [ih (acc + sizes db) hrest]
    simp [Nat.add_assoc]

/-- C7: when every per-database size query succeeds, the estimates are
deterministic scalings of the summed raw sizes — MySQL ×1.2, PostgreSQL
×1.15, MongoDB ×1.25, SQLite ×1.0 — truncated to an integer byte count
(the `f64` multiplications are modelled exactly over the rationals, which
is what the claim calls "within floating rounding"). -/
theorem estimate_backup_size_multipliers
    (cfg : DatabaseConfig) (sizes : String → Nat)
    (envM : MySQLDatabase.Env) (envP : PostgreSQLDatabase.Env)
    (envG : MongoDatabase.Env) (envS : SQLiteDatabase.Env)
    (hM : ∀ db ∈ cfg.databases, ∃ out,
      envM.run (MySQLDatabase.sizeEstQuery db) = .success out ∧
      (linesSkip1Head out).bind parseU64 = some (sizes db))
    (hP : ∀ db ∈ cfg.databases, ∃ out,
      envP.run db PostgreSQLDatabase.sizeQuery = .success out ∧
      parseU64 (trimChars out) = some (sizes db))
    (hG : ∀ db ∈ cfg.databases, ∃ out,
      envG.run db MongoDatabase.statsCommand = .success out ∧
      envG.parseStats out = some (sizes db))
    (hS : ∀ db ∈ cfg.databases, envS.fileSize (pathJoin cfg.host db) = .ok (sizes db)) :
    MySQLDatabase.estimate_backup_size cfg envM =
      .ok ((cfg.databases.map sizes).sum * 6 / 5) ∧
    PostgreSQLDatabase.estimate_backup_size cfg envP =
      .ok ((cfg.databases.map sizes).sum * 23 / 20) ∧
    MongoDatabase.estimate_backup_size cfg envG =
      .ok ((cfg.databases.map sizes).sum * 5 / 4) ∧
    SQLiteDatabase.estimate_backup_size cfg envS =
      .ok ((cfg.databases.map sizes).sum) := by
  refine ⟨?_, ?_, ?_, ?_⟩
  · unfold MySQLDatabase.estimate_backup_size
    rw [mysql_estimate_go_all_success envM sizes cfg.databases 0 hM, Nat.zero_add]
  · unfold PostgreSQLDatabase.estimate_backup_size
    rw [postgres_estimate_go_all_success envP sizes cfg.databases 0 hP, Nat.zero_add]
  · unfold MongoDatabase.estimate_backup_size
    rw [mongo_estimate_go_eq, Nat.zero_add]
    have hmap : cfg.databases.map (fun db =>
        match envG.run db MongoDatabase.statsCommand with
        | .success out => (envG.parseStats out).getD 0
        | .spawnErr _m => 0
        | .exitErr _m => 0) = cfg.databases.map sizes := by
      refine List.map_congr_left (fun db hdb => ?_)
      obtain ⟨out, hrun, hparse⟩ := hG db hdb
      simp [hrun, hparse]
    rw [hmap]
  · unfold SQLiteDatabase.estimate_backup_size
    rw [sqlite_estimate_go_eq, Nat.zero_add]
    have hmap : cfg.databases.map (fun db =>
        match envS.fileSize (pathJoin cfg.host db) with
        | .ok n => n
        | .error _e => 0) = cfg.databases.map sizes := by
      refine List.map_congr_left (fun db hdb => ?_)
      rw [hS db hdb]
    rw [hmap]

/-- C7 witness: the theorem applied at a single-database configuration with
every size query answering 100 bytes: MySQL estimates 120, PostgreSQL 115,
MongoDB 125, SQLite 100. -/
theorem estimate_backup_size_multipliers_witness :
    MySQLDatabase.estimate_backup_size ⟨"h", 0, "u", "p", ["a"]⟩
      ⟨fun _ => .success "hdr\n100"⟩ = .ok 120 ∧
    PostgreSQLDatabase.estimate_backup_size ⟨"h", 0, "u", "p", ["a"]⟩
      ⟨fun _ _ => .success "100\n"⟩ = .ok 115 ∧
    MongoDatabase.estimate_backup_size ⟨"h", 0, "u", "p", ["a"]⟩
      ⟨fun _ _ => .success "stats", fun _ => some 100⟩ = .ok 125 ∧
    SQLiteDatabase.estimate_backup_size ⟨"h", 0, "u", "p", ["a"]⟩
      ⟨fun _ => true, fun _ => none, fun _ => none, fun _ => none, fun _ => none,
       fun _ => none, fun _ => none, fun _ => none, fun _ => .ok 100,
       fun _ => .ok "3.40"⟩ = .ok 100 := by
  obtain ⟨h1, h2, h3, h4⟩ := estimate_backup_size_multipliers
    ⟨"h", 0, "u", "p", ["a"]⟩ (fun _ => 100)
    ⟨fun _ => .success "hdr\n100"⟩
    ⟨fun _ _ => .success "100\n"⟩
    ⟨fun _ _ => .success "stats", fun _ => some 100⟩
    ⟨fun _ => true, fun _ => none, fun _ => none, fun _ => none, fun _ => none,
     fun _ => none, fun _ => none, fun _ => none, fun _ => .ok 100, fun _ => .ok "3.40"⟩
    (fun db _ => ⟨"hdr\n100", rfl,
      (by decide : (linesSkip1Head "hdr\n100").bind parseU64 = some 100)⟩)
    (fun db _ => ⟨"100\n", rfl, (by decide : parseU64 (trimChars "100\n") = some 100)⟩)
    (fun db _ => ⟨"stats", rfl, rfl⟩)
    (fun db _ => rfl)
  exact ⟨by simpa using h1, by simpa using h2, by simpa using h3, by simpa using h4⟩

/-- C4: for each SQLite database file, a fully successful backup closes the
two connections explicitly, source before destination, and nothing else;
and whenever a step fails after both connections were opened, the error
surfaces only with a close of the source and a close of the destination in
the trace (explicitly, or by the drop of the live connection). -/
theorem sqlite_backup_close_discipline (env : SQLiteDatabase.Env) (host bp db : String) :
    ((SQLiteDatabase.backup_one env host bp db).1 = .ok () →
      closesOf (SQLiteDatabase.backup_one env host bp db).2 =
        [.closeSource true, .closeDest true]) ∧
    ((FsEvent.openSource (pathJoin host db) ∈ (SQLiteDatabase.backup_one env host bp db).2 ∧
      FsEvent.openDest (pathJoin bp (db ++ ".bak")) ∈ (SQLiteDatabase.backup_one env host bp db).2 ∧
      (∃ e, (SQLiteDatabase.backup_one env host bp db).1 = .error e)) →
      ((∃ b, FsEvent.closeSource b ∈ (SQLiteDatabase.backup_one env host bp db).2) ∧
       (∃ b, FsEvent.closeDest b ∈ (SQLiteDatabase.backup_one env host bp db).2))) := by
  unfold SQLiteDatabase.backup_one
  cases hex : env.pathExists (pathJoin host db) <;> simp only [hex]
  case false => exact ⟨(fun h => nomatch h), fun h => by simp at h⟩
  case true =>
    cases hcd : env.createDir bp <;> simp only [hcd]
    case some m => exact ⟨(fun h => nomatch h), fun h => by simp at h⟩
    case none =>
      cases hro : env.openRO (pathJoin host db) <;> simp only [hro]
      case some m => exact ⟨(fun h => nomatch h), fun h => by simp at h⟩
      case none =>
        cases hod : env.openDest (pathJoin bp (db ++ ".bak")) <;> simp only [hod]
        case some m => exact ⟨(fun h => nomatch h), fun h => by simp at h⟩
        case none =>
          cases hbi : env.backupInit (pathJoin host db) <;> simp only [hbi]
          case some m =>
            exact ⟨(fun h => nomatch h), fun _h => ⟨⟨false, by simp⟩, ⟨false, by simp⟩⟩⟩
          case none =>
            cases hbr : env.backupRun (pathJoin host db) <;> simp only [hbr]
            case some m =>
              exact ⟨(fun h => nomatch h), fun _h => ⟨⟨false, by simp⟩, ⟨false, by simp⟩⟩⟩
            case none =>
              cases hcs : env.closeSource (pathJoin host db) <;> simp only [hcs]
              case some m =>
                exact ⟨(fun h => nomatch h), fun _h => ⟨⟨true, by simp⟩, ⟨false, by simp⟩⟩⟩
              case none =>
                cases hcde : env.closeDest (pathJoin bp (db ++ ".bak")) <;> simp only [hcde]
                case some m =>
                  exact ⟨(fun h => nomatch h), fun _h => ⟨⟨true, by simp⟩, ⟨true, by simp⟩⟩⟩
                case none =>
                  refine ⟨fun _h => rfl, fun h => ?_⟩
                  obtain ⟨_h1, _h2, e, he⟩ := h
                  cases he

/-- C4 witness: the theorem applied at a world where every step succeeds
(success path: explicit closes, source before destination) and at a world
where the page-copy run fails (failure path: both connections still
closed, by drop, before the error surfaces). -/
theorem sqlite_backup_close_discipline_witness :
    closesOf (SQLiteDatabase.backup_one
        ⟨fun _ => true, fun _ => none, fun _ => none, fun _ => none, fun _ => none,
         fun _ => none, fun _ => none, fun _ => none, fun _ => .ok 0, fun _ => .ok "3.40"⟩
        "h" "b" "d").2 = [.closeSource true, .closeDest true] ∧
    ((∃ b, FsEvent.closeSource b ∈ (SQLiteDatabase.backup_one
        ⟨fun _ => true, fun _ => none, fun _ => none, fun _ => none, fun _ => none,
         fun _ => some "disk full", fun _ => none, fun _ => none, fun _ => .ok 0,
         fun _ => .ok "3.40"⟩ "h" "b" "d").2) ∧
     (∃ b, FsEvent.closeDest b ∈ (SQLiteDatabase.backup_one
        ⟨fun _ => true, fun _ => none, fun _ => none, fun _ => none, fun _ => none,
         fun _ => some "disk full", fun _ => none, fun _ => none, fun _ => .ok 0,
         fun _ => .ok "3.40"⟩ "h" "b" "d").2)) := by
  refine ⟨(sqlite_backup_close_discipline
      ⟨fun _ => true, fun _ => none, fun _ => none, fun _ => none, fun _ => none,
       fun _ => none, fun _ => none, fun _ => none, fun _ => .ok 0, fun _ => .ok "3.40"⟩
      "h" "b" "d").1 rfl,
    (sqlite_backup_close_discipline
      ⟨fun _ => true, fun _ => none, fun _ => none, fun _ => none, fun _ => none,
       fun _ => some "disk full", fun _ => none, fun _ => none, fun _ => .ok 0,
       fun _ => .ok "3.40"⟩ "h" "b" "d").2 ⟨?_, ?_, ⟨_, rfl⟩⟩⟩ <;> decide

/-- From `artifactsOf` distributes over trace concatenation. -/
theorem artifactsOf_append (a b : List FsEvent) :
    artifactsOf (a ++ b) = artifactsOf a ++ artifactsOf b := by
  induction a with
  | nil => rfl
  | cons x rest ih => cases x <;> simp [artifactsOf, ih]

/-- A successful MySQL backup loop writes exactly `<bp>/<db>.sql` per
configured database. -/
theorem mysql_backup_go_artifacts (env : MySQLDatabase.BackupEnv) (bp : String)
    (l : List String) (h : (MySQLDatabase.backup_go env bp l).1 = .ok ()) :
    artifactsOf (MySQLDatabase.backup_go env bp l).2 =
      l.map (fun db => pathJoin bp (db ++ ".sql")) := by
  induction l with
  | nil => rfl
  | cons db rest ih =>
    cases hgo : MySQLDatabase.backup_go env bp rest with
    | mk r tr2 =>
      rw [hgo] at ih
      cases hd : env.dump db with
      | spawnErr m =>
          simp [MySQLDatabase.backup_go, MySQLDatabase.execute_mysqldump, hd] at h
      | exitErr se =>
          simp [MySQLDatabase.backup_go, MySQLDatabase.execute_mysqldump, hd] at h
      | success out =>
          cases hw : env.write (pathJoin bp (db ++ ".sql")) with
          | some m =>
              simp [MySQLDatabase.backup_go, MySQLDatabase.execute_mysqldump, hd, hw] at h
          | none =>
              simp only [MySQLDatabase.backup_go, MySQLDatabase.execute_mysqldump, hd, hw,
                hgo] at h ⊢
              simp [artifactsOf, ih h]

/-- A successful PostgreSQL backup loop instructs `pg_dump` to write
exactly `<bp>/<db>.dump` per configured database. -/
theorem postgres_backup_go_artifacts (env : PostgreSQLDatabase.BackupEnv) (bp : String)
    (l : List String) (h : (PostgreSQLDatabase.backup_go env bp l).1 = .ok ()) :
    artifactsOf (PostgreSQLDatabase.backup_go env bp l).2 =
      l.map (fun db => pathJoin bp (db ++ ".dump")) := by
  induction l with
  | nil => rfl
  | cons db rest ih =>
    cases hgo : PostgreSQLDatabase.backup_go env bp rest with
    | mk r tr2 =>
      rw [hgo] at ih
      cases hd : env.dump db with
      | spawnErr m =>
          simp [PostgreSQLDatabase.backup_go, PostgreSQLDatabase.execute_pg_dump, hd] at h
      | exitErr se =>
          simp [PostgreSQLDatabase.backup_go, PostgreSQLDatabase.execute_pg_dump, hd] at h
      | success out =>
          simp only [PostgreSQLDatabase.backup_go, PostgreSQLDatabase.execute_pg_dump, hd,
            hgo] at h ⊢
          simp [artifactsOf, ih h]

/-- A successful Mongo backup loop runs `mongodump` once per configured
database, each time pointed at the shared destination directory. -/
theorem mongo_backup_go_trace (env : MongoDatabase.BackupEnv) (bp : String)
    (l : List String) (h : (MongoDatabase.backup_go env bp l).1 = .ok ()) :
    (MongoDatabase.backup_go env bp l).2 =
      (l.map (fun db => [FsEvent.toolRun "mongodump" db, FsEvent.toolOutDir bp])).flatten := by
  induction l with
  | nil => rfl
  | cons db rest ih =>
    cases hgo : MongoDatabase.backup_go env bp rest with
    | mk r tr2 =>
      rw [hgo] at ih
      cases hd : env.dump db with
      | spawnErr m =>
          simp [MongoDatabase.backup_go, MongoDatabase.execute_mongodump, hd] at h
      | exitErr se =>
          simp [MongoDatabase.backup_go, MongoDatabase.execute_mongodump, hd] at h
      | success out =>
          simp only [MongoDatabase.backup_go, MongoDatabase.execute_mongodump, hd, hgo] at h ⊢
          simp
          exact ih h

/-- A successful single-file SQLite backup creates exactly the destination
file `<bp>/<db>.bak`. -/
theorem sqlite_backup_one_artifacts (env : SQLiteDatabase.Env) (host bp db : String)
    (h : (SQLiteDatabase.backup_one env host bp db).1 = .ok ()) :
    artifactsOf (SQLiteDatabase.backup_one env host bp db).2 =
      [pathJoin bp (db ++ ".bak")] := by
  unfold SQLiteDatabase.backup_one at h ⊢
  cases hex : env.pathExists (pathJoin host db) <;> simp only [hex] at h ⊢
  case false => cases h
  case true =>
    cases hcd : env.createDir bp <;> simp only [hcd] at h ⊢
    case some m => cases h
    case none =>
      cases hro : env.openRO (pathJoin host db) <;> simp only [hro] at h ⊢
      case some m => cases h
      case none =>
        cases hod : env.openDest (pathJoin bp (db ++ ".bak")) <;> simp only [hod] at h ⊢
        case some m => cases h
        case none =>
          cases hbi : env.backupInit (pathJoin host db) <;> simp only [hbi] at h ⊢
          case some m => cases h
          case none =>
            cases hbr : env.backupRun (pathJoin host db) <;> simp only [hbr] at h ⊢
            case some m => cases h
            case none =>
              cases hcs : env.closeSource (pathJoin host db) <;> simp only [hcs] at h ⊢
              case some m => cases h
              case none =>
                cases hcde : env.closeDest (pathJoin bp (db ++ ".bak")) <;>
                  simp only [hcde] at h ⊢
                case some m => cases h
                case none => rfl

/-- A successful SQLite backup loop creates exactly `<bp>/<db>.bak` per
configured database file. -/
theorem sqlite_backup_go_artifacts (env : SQLiteDatabase.Env) (host bp : String)
    (l : List String) (h : (SQLiteDatabase.backup_database_go env host bp l).1 = .ok ()) :
    artifactsOf (SQLiteDatabase.backup_database_go env host bp l).2 =
      l.map (fun db => pathJoin bp (db ++ ".bak")) := by
  induction l with
  | nil => rfl
  | cons db rest ih =>
    cases hone : SQLiteDatabase.backup_one env host bp db with
    | mk r1 tr1 =>
      cases hgo : SQLiteDatabase.backup_database_go env host bp rest with
      | mk r tr2 =>
        rw [hgo] at ih
        cases r1 with
        | error e =>
            simp [SQLiteDatabase.backup_database_go, hone] at h
        | ok u =>
            simp only [SQLiteDatabase.backup_database_go, hone, hgo] at h ⊢
            rw [artifactsOf_append, ih h]
            have h1 : artifactsOf tr1 = [pathJoin bp (db ++ ".bak")] := by
              have := sqlite_backup_one_artifacts env host bp db
              rw [hone] at this
              exact this (by cases u; rfl)
            rw [h1]
            rfl

/-- C9: a fully successful backup produces, in the shared destination
directory, exactly one artifact per configured logical database named
`<db>.sql` (MySQL), `<db>.dump` (PostgreSQL), `<db>.bak` (SQLite); the
document store instead invokes `mongodump` once per database with the
destination directory as its managed `--out` location. -/
theorem backup_artifact_layout
    (cfgM cfgP cfgS cfgG : DatabaseConfig) (bp : String)
    (envM : MySQLDatabase.BackupEnv) (envP : PostgreSQLDatabase.BackupEnv)
    (envS : SQLiteDatabase.Env) (envG : MongoDatabase.BackupEnv)
    (hM : (MySQLDatabase.backup cfgM envM bp).1 = .ok ())
    (hP : (PostgreSQLDatabase.backup cfgP envP bp).1 = .ok ())
    (hS : (SQLiteDatabase.backup cfgS envS bp).1 = .ok ())
    (hG : (MongoDatabase.backup cfgG envG bp).1 = .ok ()) :
    artifactsOf (MySQLDatabase.backup cfgM envM bp).2 =
      cfgM.databases.map (fun db => pathJoin bp (db ++ ".sql")) ∧
    artifactsOf (PostgreSQLDatabase.backup cfgP envP bp).2 =
      cfgP.databases.map (fun db => pathJoin bp (db ++ ".dump")) ∧
    artifactsOf (SQLiteDatabase.backup cfgS envS bp).2 =
      cfgS.databases.map (fun db => pathJoin bp (db ++ ".bak")) ∧
    (MongoDatabase.backup cfgG envG bp).2 =
      .createDir bp ::
        (cfgG.databases.map (fun db =>
          [FsEvent.toolRun "mongodump" db, FsEvent.toolOutDir bp])).flatten := by
  refine ⟨?_, ?_, ?_, ?_⟩
  · unfold MySQLDatabase.backup at hM ⊢
    cases hcd : envM.createDir bp with
    | some m => simp [hcd] at hM
    | none =>
      cases hgo : MySQLDatabase.backup_go envM bp cfgM.databases with
      | mk r tr =>
        simp only [hcd, hgo] at hM ⊢
        have := mysql_backup_go_artifacts envM bp cfgM.databases
        rw [hgo] at this
        simpa [artifactsOf] using this hM
  · unfold PostgreSQLDatabase.backup at hP ⊢
    cases hcd : envP.createDir bp with
    | some m => simp [hcd] at hP
    | none =>
      cases hgo : PostgreSQLDatabase.backup_go envP bp cfgP.databases with
      | mk r tr =>
        simp only [hcd, hgo] at hP ⊢
        have := postgres_backup_go_artifacts envP bp cfgP.databases
        rw [hgo] at this
        simpa [artifactsOf] using this hP
  · unfold SQLiteDatabase.backup SQLiteDatabase.backup_database at hS ⊢
    exact sqlite_backup_go_artifacts envS cfgS.host bp cfgS.databases hS
  · unfold MongoDatabase.backup at hG ⊢
    cases hcd : envG.createDir bp with
    | some m => simp [hcd] at hG
    | none =>
      cases hgo : MongoDatabase.backup_go envG bp cfgG.databases with
      | mk r tr =>
        simp only [hcd, hgo] at hG ⊢
        have := mongo_backup_go_trace envG bp cfgG.databases
        rw [hgo] at this
        simp
        exact this hG

/-- C9 witness: the theorem applied at a single-database configuration with
all-successful worlds: the artifacts are `b/a.sql`, `b/a.dump`, `b/a.bak`,
and one `mongodump` invocation managed under `b`. -/
theorem backup_artifact_layout_witness :
    artifactsOf (MySQLDatabase.backup ⟨"h", 0, "u", "p", ["a"]⟩
        ⟨fun _ => none, fun _ => .success "dump", fun _ => none⟩ "b").2 = ["b/a.sql"] ∧
    artifactsOf (PostgreSQLDatabase.backup ⟨"h", 0, "u", "p", ["a"]⟩
        ⟨fun _ => none, fun _ => .success ""⟩ "b").2 = ["b/a.dump"] ∧
    artifactsOf (SQLiteDatabase.backup ⟨"h", 0, "u", "p", ["a"]⟩
        ⟨fun _ => true, fun _ => none, fun _ => none, fun _ => none, fun _ => none,
         fun _ => none, fun _ => none, fun _ => none, fun _ => .ok 0, fun _ => .ok "3.40"⟩
        "b").2 = ["b/a.bak"] ∧
    (MongoDatabase.backup ⟨"h", 0, "u", "p", ["a"]⟩
        ⟨fun _ => none, fun _ => .success ""⟩ "b").2 =
      [.createDir "b", .toolRun "mongodump" "a", .toolOutDir "b"] := by
  obtain ⟨h1, h2, h3, h4⟩ := backup_artifact_layout
    ⟨"h", 0, "u", "p", ["a"]⟩ ⟨"h", 0, "u", "p", ["a"]⟩ ⟨"h", 0, "u", "p", ["a"]⟩
    ⟨"h", 0, "u", "p", ["a"]⟩ "b"
    ⟨fun _ => none, fun _ => .success "dump", fun _ => none⟩
    ⟨fun _ => none, fun _ => .success ""⟩
    ⟨fun _ => true, fun _ => none, fun _ => none, fun _ => none, fun _ => none,
     fun _ => none, fun _ => none, fun _ => none, fun _ => .ok 0, fun _ => .ok "3.40"⟩
    ⟨fun _ => none, fun _ => .success ""⟩
    rfl rfl rfl rfl
  refine ⟨?_, ?_, ?_, ?_⟩ <;> first
  | (rw [h1]; decide)
  | (rw [h2]; decide)
  | (rw [h3]; decide)
  | (rw [h4]; decide)

/-- The per-backend driver of the orchestrator calls only probe, listing,
estimation and backup — never `validate_config`. -/
theorem perform_backup_no_validate (b : BackendBehavior) (tag t : String) :
    OrchEvent.validateCfg t ∉ (BackupPerformer.perform_backup b tag).2 := by
  unfold BackupPerformer.perform_backup
  repeat' split
  all_goals simp

/-- One orchestrator block records only the factory call and the
`perform_backup` calls. -/
theorem execStep_no_validate (cfgOpt : Option DatabaseConfig) (tag : String)
    (env : String → BackendBehavior) (t : String) :
    OrchEvent.validateCfg t ∉ (BackupPerformer.execStep cfgOpt tag env).2 := by
  have hp := perform_backup_no_validate (env tag) tag t
  unfold BackupPerformer.execStep
  repeat' split
  all_goals simp_all

/-- The whole run never records a `validate_config` call. -/
theorem execute_no_validate (dbs : Databases) (env : String → BackendBehavior) (t : String) :
    OrchEvent.validateCfg t ∉ (BackupPerformer.execute dbs env).2 := by
  have h1 := execStep_no_validate dbs.sqlite "sqlite" env t
  have h2 := execStep_no_validate dbs.mysql "mysql" env t
  have h3 := execStep_no_validate dbs.postgres "postgres" env t
  have h4 := execStep_no_validate dbs.mongodb "mongodb" env t
  unfold BackupPerformer.execute
  repeat' split
  all_goals simp_all

/-- C10: the orchestrator never invokes `validate_config` on any backend;
consequently a configuration with an empty database-name list is never
rejected, and `backup` on it returns success writing no per-database
artifact — the MySQL, PostgreSQL and MongoDB paths still create the
destination directory, the SQLite path performs no I/O at all. -/
theorem orchestrator_never_validates_and_empty_backup_succeeds
    (dbs : Databases) (env : String → BackendBehavior) (t : String)
    (cfg : DatabaseConfig) (bp : String)
    (envM : MySQLDatabase.BackupEnv) (envP : PostgreSQLDatabase.BackupEnv)
    (envG : MongoDatabase.BackupEnv) (envS : SQLiteDatabase.Env)
    (hempty : cfg.databases = [])
    (hM : envM.createDir bp = none) (hP : envP.createDir bp = none)
    (hG : envG.createDir bp = none) :
    (OrchEvent.validateCfg t ∉ (BackupPerformer.execute dbs env).2) ∧
    MySQLDatabase.backup cfg envM bp = (.ok (), [.createDir bp]) ∧
    PostgreSQLDatabase.backup cfg envP bp = (.ok (), [.createDir bp]) ∧
    MongoDatabase.backup cfg envG bp = (.ok (), [.createDir bp]) ∧
    SQLiteDatabase.backup cfg envS bp = (.ok (), []) := by
  refine ⟨execute_no_validate dbs env t, ?_, ?_, ?_, ?_⟩
  · simp [MySQLDatabase.backup, hM, hempty, MySQLDatabase.backup_go]
  · simp [PostgreSQLDatabase.backup, hP, hempty, PostgreSQLDatabase.backup_go]
  · simp [MongoDatabase.backup, hG, hempty, MongoDatabase.backup_go]
  · simp [SQLiteDatabase.backup, SQLiteDatabase.backup_database, hempty,
      SQLiteDatabase.backup_database_go]

/-- C10 witness: the theorem applied at a concrete run configuration and an
empty-database-list backend configuration. -/
theorem orchestrator_never_validates_and_empty_backup_succeeds_witness :
    (OrchEvent.validateCfg "sqlite" ∉
      (BackupPerformer.execute ⟨some ⟨"h", 0, "u", "p", ["a"]⟩, none, none, none⟩
        (fun _ => ⟨.ok .Connected, .ok [], .ok 0, .ok ()⟩)).2) ∧
    MySQLDatabase.backup ⟨"h", 0, "u", "p", []⟩
      ⟨fun _ => none, fun _ => .success "", fun _ => none⟩ "b" =
        (.ok (), [.createDir "b"]) ∧
    PostgreSQLDatabase.backup ⟨"h", 0, "u", "p", []⟩
      ⟨fun _ => none, fun _ => .success ""⟩ "b" = (.ok (), [.createDir "b"]) ∧
    MongoDatabase.backup ⟨"h", 0, "u", "p", []⟩
      ⟨fun _ => none, fun _ => .success ""⟩ "b" = (.ok (), [.createDir "b"]) ∧
    SQLiteDatabase.backup ⟨"h", 0, "u", "p", []⟩
      ⟨fun _ => true, fun _ => none, fun _ => none, fun _ => none, fun _ => none,
       fun _ => none, fun _ => none, fun _ => none, fun _ => .ok 0, fun _ => .ok "3.40"⟩
      "b" = (.ok (), []) :=
  orchestrator_never_validates_and_empty_backup_succeeds
    ⟨some ⟨"h", 0, "u", "p", ["a"]⟩, none, none, none⟩
    (fun _ => ⟨.ok .Connected, .ok [], .ok 0, .ok ()⟩) "sqlite"
    ⟨"h", 0, "u", "p", []⟩ "b"
    ⟨fun _ => none, fun _ => .success "", fun _ => none⟩
    ⟨fun _ => none, fun _ => .success ""⟩
    ⟨fun _ => none, fun _ => .success ""⟩
    ⟨fun _ => true, fun _ => none, fun _ => none, fun _ => none, fun _ => none,
     fun _ => none, fun _ => none, fun _ => none, fun _ => .ok 0, fun _ => .ok "3.40"⟩
    rfl rfl rfl rfl

end Kronos
